import Mathlib

/-!
Verification of the refret lesson-processing backend.

Shallow embedding of `src/backend/app/services/audio.py`,
`src/backend/app/services/store.py` and
`src/backend/app/routers/lessons.py`.  Machine floats are modelled as
rationals; Python `round(x, 4)` is modelled as nearest-integer rounding of
`x * 10000` (tie-breaking at exact half values is a float-level detail that
does not arise in the properties below).  External tools (ffmpeg, Demucs,
Whisper, the LLM) are modelled as oracles whose results are parameters.
-/

namespace Refret

/-! ## Peak extractor (`AudioProcessor.generate_peaks`) -/

/-- Python `round(x, 4)`: round to 4 decimal places. -/
def round4 (x : ℚ) : ℚ := (round (x * 10000) : ℤ) / 10000

/-- `np.max(np.abs(y))` over a buffer, with `0` for the empty buffer
(the source only evaluates it on non-empty buffers, where the `0`
initial accumulator is absorbed since every `|x|` is nonnegative). -/
def maxAbs (l : List ℚ) : ℚ := l.foldl (fun a x => max a |x|) 0

/-- The source's fixed decode sample rate (`-ar 44100`). -/
def sampleRate : ℕ := 44100

/-- `chunk_size = int(44100 / points_per_second)`.  For `1 ≤ pps` the float
division followed by `int` truncation agrees with natural-number division:
the quotient is a rational with denominator at most 44100, so the float
rounding error cannot cross an integer boundary. -/
def chunk_size (points_per_second : ℕ) : ℕ := sampleRate / points_per_second

/-- The `while True` read loop of `generate_peaks`: read one window of `c`
samples, emit `round(max(abs(window)), 4)`, continue on the rest; stop at
end of stream.  A window of `c = 0` samples makes `read(0)` return the
empty buffer at once, so the loop emits nothing (matching the source,
where `bytes_per_chunk = 0` ends the loop on its first iteration). -/
def peaksLoop (c : ℕ) (xs : List ℚ) : List ℚ :=
  if h : xs = [] ∨ c = 0 then []
  else round4 (maxAbs (xs.take c)) :: peaksLoop c (xs.drop c)
termination_by xs.length
decreasing_by
  simp only [not_or] at h
  have hx : 0 < xs.length := List.length_pos.mpr h.1
  have hc : 0 < c := Nat.pos_of_ne_zero h.2
  simp only [List.length_drop]
  omega

/-- The list of consecutive windows the loop reads (specification-side view
of the same traversal, used to state what each emitted point is). -/
def windowsOf (c : ℕ) (xs : List ℚ) : List (List ℚ) :=
  if h : xs = [] ∨ c = 0 then []
  else xs.take c :: windowsOf c (xs.drop c)
termination_by xs.length
decreasing_by
  simp only [not_or] at h
  have hx : 0 < xs.length := List.length_pos.mpr h.1
  have hc : 0 < c := Nat.pos_of_ne_zero h.2
  simp only [List.length_drop]
  omega

/-- The decoded mono stream the windows are read from.  `ffmpeg` failure
(missing file, undecodable input) writes nothing to the pipe, so the loop
sees an empty stream — it does not raise. -/
inductive DecodeResult where
  | ok (samples : List ℚ)
  | failed
deriving DecidableEq, Repr

def DecodeResult.stream : DecodeResult → List ℚ
  | .ok samples => samples
  | .failed => []

/-- The point sequence `generate_peaks` accumulates for a decoded stream. -/
def generate_peaks_points (points_per_second : ℕ) (samples : List ℚ) : List ℚ :=
  peaksLoop (chunk_size points_per_second) samples

/-- The JSON document `generate_peaks` writes:
`{"data": peaks, "points_per_second": points_per_second}`. -/
structure PeaksFile where
  data : List ℚ
  points_per_second : ℕ
deriving DecidableEq, Repr

/-- Peak-extraction errors as named by the spec's taxonomy. -/
inductive ExtractionError where
  | ioError
deriving DecidableEq, Repr

/-- `AudioProcessor.generate_peaks` as seen by its caller.  The whole body is
wrapped in `try/except Exception` whose handler only prints, so no error
ever propagates: a decode failure yields an empty stream and the function
still writes the output file; an in-body exception (`points_per_second = 0`
raises `ZeroDivisionError`) is swallowed and no file is written. -/
def generate_peaks (dec : DecodeResult) (points_per_second : ℕ) :
    Except ExtractionError (Option PeaksFile) :=
  if points_per_second = 0 then .ok none
  else .ok (some { data := generate_peaks_points points_per_second dec.stream,
                   points_per_second := points_per_second })

/-! ## Chunked splitter / merger (`_split_audio`, `_merge_audio_files`) -/

/-- A source audio file as the splitter sees it. -/
structure SrcAudio where
  readable : Bool
  numSamples : ℕ
deriving DecidableEq, Repr

inductive SplitError where
  | ffmpegFailed
deriving DecidableEq, Repr

inductive MergeError where
  | noFiles
  | ffmpegFailed
deriving DecidableEq, Repr

/-- The `ffmpeg -f segment -c copy` invocation (external tool, modelled):
it fails (non-zero exit) on an unreadable or zero-length source, and
otherwise produces the consecutive chunk lengths, at most `segTime` seconds
each.  `_split_audio` runs it with `check=True`, so the failure propagates
to the caller; on success it returns the sorted chunk files. -/
def split_audio (src : SrcAudio) (segSamples : ℕ) :
    Except SplitError (List ℕ) :=
  if src.readable ∧ src.numSamples ≠ 0 then
    .ok ((windowsOf segSamples (List.replicate src.numSamples 0)).map
      List.length)
  else .error .ffmpegFailed

/-- `_merge_audio_files`: raises `ValueError("No files to merge")` on an
empty input list before any I/O; otherwise the `ffmpeg concat` copy
(external tool, modelled) concatenates the inputs in order. -/
def merge_audio_files (input_files : List ℕ) : Except MergeError ℕ :=
  if input_files = [] then .error .noFiles
  else .ok input_files.sum

/-! ## Lesson state (`routers/lessons.py` + `services/store.py`)

A lesson directory under `data_dir/lesson_id` holds `status.json`,
`metadata.json` and the artifact files; the transcript segments and the
summary document are kept abstract where their contents do not matter. -/

/-- Python exceptions that flow through the handlers, with the message
`str(e)` yields. -/
inductive PyError where
  | fileNotFound (msg : String)
  | valueError (msg : String)
  | stageError (msg : String)
deriving DecidableEq, Repr

def strOfError : PyError → String
  | .fileNotFound m => m
  | .valueError m => m
  | .stageError m => m

/-- One transcript segment `{start, end, text}` (seconds). -/
structure Seg where
  start : ℚ
  stop : ℚ
  text : String
deriving DecidableEq, Repr

/-- The summary dict `AudioProcessor.summarize` returns: either the
`model_dump` of `LessonSummary` (keys `summary`, `key_points`, `chords`),
or an error-shaped dict with an `error` key.  Key points are kept as their
rendered text. -/
structure SummaryDoc where
  summary : Option String := none
  key_points : Option (List String) := none
  chords : Option (List String) := none
  error : Option String := none
deriving DecidableEq, Repr

/-- The JSON object stored in `metadata.json` (and the dict
`get_lesson_metadata` returns): a record of optional keys, `none` meaning
the key is absent. -/
structure MetaDict where
  title : Option String := none
  created_at : Option String := none
  tags : Option (List String) := none
  memo : Option String := none
  status : Option String := none
  transcript : Option String := none
  summary : Option String := none
  key_points : Option (List String) := none
  chords : Option (List String) := none
  error : Option String := none
deriving DecidableEq, Repr

/-- Python `dict.update`: keys present in the right dict win. -/
def keyUpd (old new : Option α) : Option α :=
  match new with
  | some v => some v
  | none => old

/-- `a.update(b)` on metadata dicts. -/
def metaUpdate (a b : MetaDict) : MetaDict where
  title := keyUpd a.title b.title
  created_at := keyUpd a.created_at b.created_at
  tags := keyUpd a.tags b.tags
  memo := keyUpd a.memo b.memo
  status := keyUpd a.status b.status
  transcript := keyUpd a.transcript b.transcript
  summary := keyUpd a.summary b.summary
  key_points := keyUpd a.key_points b.key_points
  chords := keyUpd a.chords b.chords
  error := keyUpd a.error b.error

/-- `meta.update(summary_data)` where `summary_data` is a `SummaryDoc`. -/
def metaUpdateSummary (a : MetaDict) (s : SummaryDoc) : MetaDict :=
  { a with summary := keyUpd a.summary s.summary
           key_points := keyUpd a.key_points s.key_points
           chords := keyUpd a.chords s.chords
           error := keyUpd a.error s.error }

/-- The contents of `status.json` (`updated_at` timestamps not modelled). -/
structure StatusRecord where
  status : String
  progress : ℚ
  message : String
deriving DecidableEq, Repr

/-- The persistent state of one lesson directory. -/
structure LessonFS where
  dirExists : Bool := false
  /-- creation date the store infers from the folder when `metadata.json`
  is absent -/
  folderCtime : String := ""
  statusFile : Option StatusRecord := none
  metadataFile : Option MetaDict := none
  rawUpload : Bool := false
  originalMp3 : Bool := false
  vocalsMp3 : Bool := false
  guitarMp3 : Bool := false
  vocalsPeaks : Bool := false
  guitarPeaks : Bool := false
  transcriptJson : Option (List Seg) := none
  transcriptTxt : Option String := none
  summaryJson : Option SummaryDoc := none
deriving DecidableEq, Repr

/-- `StoreService.get_lesson_metadata`: base defaults, overlaid with
`metadata.json` when present (otherwise `created_at` is inferred from the
folder), then the transcript loaded from `transcript.txt` and the summary
fields loaded from `summary.json` with per-key defaults. -/
def get_lesson_metadata (st : LessonFS) : MetaDict :=
  let base : MetaDict := { tags := some [], memo := some "", created_at := some "" }
  let d0 := match st.metadataFile with
    | some m => metaUpdate base m
    | none => if st.dirExists then { base with created_at := some st.folderCtime } else base
  let d1 := match st.transcriptTxt with
    | some t => { d0 with transcript := some t }
    | none => d0
  match st.summaryJson with
  | some sj =>
      { d1 with summary := some (sj.summary.getD ""),
                key_points := some (sj.key_points.getD []),
                chords := some (sj.chords.getD []) }
  | none => d1

/-- `StoreService.save_lesson_metadata`: overwrites `metadata.json` with
exactly the given dict (the global-tag side file is not modelled). -/
def save_lesson_metadata (st : LessonFS) (m : MetaDict) : LessonFS :=
  { st with dirExists := true, metadataFile := some m }

/-! ## Pipeline runs -/

/-- Results of the external stage executors for one run. -/
structure Oracles where
  /-- `prepare_wav` ffmpeg conversion -/
  prepare_wav : Except PyError Unit
  /-- `separate_audio` (Demucs, chunked); on success it writes
  `vocals.mp3` and `guitar.mp3` -/
  separate : Except PyError Unit
  /-- the Whisper call: transcript text and segments -/
  transcribe : Except PyError (String × List Seg)
  /-- the structured LLM call inside `summarize`'s `try` -/
  llm : Except PyError SummaryDoc
  /-- the `convert_to_mp3` ffmpeg call in the upload handler -/
  convert_mp3 : Except PyError Unit

/-- `AudioProcessor.summarize`: the LLM call is wrapped in `try/except`,
so the stage itself never raises — an LLM failure becomes a dict holding
only the `error` key. -/
def summarize (o : Oracles) : SummaryDoc :=
  match o.llm with
  | .ok d => d
  | .error e => { error := some (strOfError e) }

/-- `update_status` (same body in both handlers): rewrite `status.json`,
then `save_lesson_metadata(lesson_id, {"status": status})` — which
replaces the whole of `metadata.json` with that single-key dict. -/
def write_status (st : LessonFS) (s : String) (p : ℚ) (m : String) : LessonFS :=
  { st with statusFile := some ⟨s, p, m⟩,
            metadataFile := some { status := some s } }

/-- State together with the ordered list of `status.json` writes. -/
abbrev Tracked := LessonFS × List StatusRecord

def upd (x : Tracked) (s : String) (p : ℚ) (m : String) : Tracked :=
  (write_status x.1 s p m, x.2 ++ [⟨s, p, m⟩])

/-- The outcome of a background task: final state, status writes in order,
and the exception the `except` handler caught, if any. -/
structure RunResult where
  state : LessonFS
  trace : List StatusRecord
  raised : Option PyError
deriving Repr

/-- The `except Exception` handler shared by both background tasks,
parameterised by the message it writes (`str(e)` in the fresh pipeline,
`f"Error: {str(e)}"` in the re-run handler). -/
def failWith (x : Tracked) (e : PyError) (msg : String) : RunResult :=
  let x' := upd x "failed" 0 msg
  ⟨x'.1, x'.2, some e⟩

/-- `save_results`: write `transcript.json`, `transcript.txt` and
`summary.json`. -/
def save_results (st : LessonFS) (segments : List Seg) (transcript_text : String)
    (summary_json : SummaryDoc) : LessonFS :=
  { st with transcriptJson := some segments,
            transcriptTxt := some transcript_text,
            summaryJson := some summary_json }

/-- The default-filling step of `process_lesson_background`: missing or
falsy `title`/`created_at` get defaults, missing `tags`/`memo` get empty
defaults. -/
def fill_default_metadata (im : MetaDict) (lessonId now : String) : MetaDict :=
  let m1 := if im.title = none ∨ im.title = some "" then
              { im with title := some ("Lesson " ++ lessonId) } else im
  let m2 := if m1.created_at = none ∨ m1.created_at = some "" then
              { m1 with created_at := some now } else m1
  let m3 := if m2.tags = none then { m2 with tags := some [] } else m2
  if m3.memo = none then { m3 with memo := some "" } else m3

/-- `process_lesson_background`: the full pipeline for a fresh upload.
`lessonId`/`now` stand for the generated id and `datetime.now()`.  The
temporary `proc_temp.wav` cleanup is not modelled (it lives outside the
tracked artifacts). -/
def process_lesson_background (o : Oracles) (im : MetaDict)
    (lessonId now : String) (st0 : LessonFS) : RunResult :=
  let x1 := upd (st0, []) "processing" 0.05 "Separating Audio (Demucs)... This takes time."
  match o.prepare_wav with
  | .error e => failWith x1 e (strOfError e)
  | .ok _ =>
  match o.separate with
  | .error e => failWith x1 e (strOfError e)
  | .ok _ =>
  let x2 : Tracked := ({ x1.1 with vocalsMp3 := true, guitarMp3 := true }, x1.2)
  let x3 := upd x2 "processing" 0.15 "Generating Waveforms..."
  let x4 : Tracked := ({ x3.1 with vocalsPeaks := true, guitarPeaks := true }, x3.2)
  let x5 := upd x4 "processing" 0.5 "Transcribing Vocals (Whisper)..."
  match o.transcribe with
  | .error e => failWith x5 e (strOfError e)
  | .ok (transcript_text, segments) =>
  let x6 := upd x5 "processing" 0.8 "Summarizing (LLM)..."
  let summary_data := summarize o
  let x7 := upd x6 "processing" 0.95 "Finalizing..."
  let st8 := save_results x7.1 segments transcript_text summary_data
  let metadata := fill_default_metadata im lessonId now
  let st9 := save_lesson_metadata st8 metadata
  let xA := upd (st9, x7.2) "completed" 1.0 "Ready"
  ⟨xA.1, xA.2, none⟩

/-- The stage name passed to `reprocess_lesson_step`; `other` models any
string outside the three known stages (the `else` branch). -/
inductive TaskType where
  | separate
  | transcribe
  | summarize
  | other (name : String)
deriving DecidableEq, Repr

def TaskType.name : TaskType → String
  | .separate => "separate"
  | .transcribe => "transcribe"
  | .summarize => "summarize"
  | .other n => n

/-- `reprocess_lesson_step`: re-run exactly one stage. -/
def reprocess_lesson_step (o : Oracles) (task : TaskType) (st0 : LessonFS) :
    RunResult :=
  let x0 : Tracked := (st0, [])
  if ¬ st0.originalMp3 then
    failWith x0 (.fileNotFound "Original audio file not found")
      "Error: Original audio file not found"
  else
    match task with
    | .separate =>
        let x1 := upd x0 "processing" 0.1 "Re-separating Audio..."
        match o.prepare_wav with
        | .error e => failWith x1 e ("Error: " ++ strOfError e)
        | .ok _ =>
        match o.separate with
        | .error e => failWith x1 e ("Error: " ++ strOfError e)
        | .ok _ =>
          let x2 : Tracked := ({ x1.1 with vocalsMp3 := true, guitarMp3 := true }, x1.2)
          let x3 := upd x2 "completed" 1.0 "Separation Complete"
          ⟨x3.1, x3.2, none⟩
    | .transcribe =>
        let x1 := upd x0 "processing" 0.1 "Re-transcribing..."
        if ¬ x1.1.vocalsMp3 then
          failWith x1 (.fileNotFound "Vocals track not found. Run separation first.")
            "Error: Vocals track not found. Run separation first."
        else
          match o.transcribe with
          | .error e => failWith x1 e ("Error: " ++ strOfError e)
          | .ok (transcript_text, segments) =>
            let st2 := { x1.1 with transcriptJson := some segments,
                                   transcriptTxt := some transcript_text }
            let meta := get_lesson_metadata st2
            let st3 := save_lesson_metadata st2 { meta with transcript := some transcript_text }
            let x4 := upd (st3, x1.2) "completed" 1.0 "Transcription Complete"
            ⟨x4.1, x4.2, none⟩
    | .summarize =>
        let x1 := upd x0 "processing" 0.1 "Re-summarizing..."
        match x1.1.transcriptJson with
        | none =>
            failWith x1 (.fileNotFound "Transcript not found. Run transcription first.")
              "Error: Transcript not found. Run transcription first."
        | some _ =>
          let summary_data := summarize o
          let st2 := { x1.1 with summaryJson := some summary_data }
          let meta := get_lesson_metadata st2
          let st3 := save_lesson_metadata st2 (metaUpdateSummary meta summary_data)
          let x4 := upd (st3, x1.2) "completed" 1.0 "Summarization Complete"
          ⟨x4.1, x4.2, none⟩
    | .other n =>
        failWith x0 (.valueError ("Unknown task: " ++ n))
          ("Error: " ++ ("Unknown task: " ++ n))

/-! ## Upload entrypoint (`upload_lesson`) -/

/-- What the upload handler leaves behind: the HTTP response (error detail
or lesson id), the lesson directory state, and whether the background
pipeline task was dispatched. -/
structure UploadResult where
  response : Except String String
  state : LessonFS
  dispatched : Bool
deriving Repr

/-- `upload_lesson`: create the lesson directory, save the raw upload,
normalize it to `original.mp3`.  If the conversion fails the raw file is
unlinked, the whole directory is removed with `rmtree`, and an HTTP 500
is raised — before the status file, the DB record or the background-task
dispatch.  On success the raw file is removed, `status.json` is
initialised to `queued` and the pipeline task is dispatched. -/
def upload_lesson (o : Oracles) (im : MetaDict) (ctime : String) : UploadResult :=
  let st1 : LessonFS := { dirExists := true, folderCtime := ctime, rawUpload := true }
  match o.convert_mp3 with
  | .error e =>
      ⟨.error ("Audio normalization failed: " ++ strOfError e), { folderCtime := ctime }, false⟩
  | .ok _ =>
      let st2 := { st1 with rawUpload := false, originalMp3 := true }
      let st3 := { st2 with statusFile := some ⟨"queued", 0.0, "In Queue"⟩ }
      let st4 := save_lesson_metadata st3 { im with status := some "queued" }
      ⟨.ok "lesson id", st4, true⟩

/-! ## Helper lemmas about the peak-extraction loop -/

theorem windowsOf_flatten (c : ℕ) (hc : c ≠ 0) (xs : List ℚ) :
    (windowsOf c xs).flatten = xs := by
  induction xs using windowsOf.induct c with
  | case1 xs h =>
      rcases h with h | h
      · subst h; rw [windowsOf]; simp
      · exact absurd h hc
  | case2 xs h ih =>
      rw [windowsOf, dif_neg h]
      simp [ih]

theorem peaksLoop_eq_map (c : ℕ) (xs : List ℚ) :
    peaksLoop c xs = (windowsOf c xs).map (fun w => round4 (maxAbs w)) := by
  induction xs using windowsOf.induct c with
  | case1 xs h => rw [peaksLoop, windowsOf, dif_pos h, dif_pos h]; simp
  | case2 xs h ih => rw [peaksLoop, windowsOf, dif_neg h, dif_neg h]; simp [ih]

theorem windowsOf_mem_props (c : ℕ) (xs : List ℚ) :
    ∀ w ∈ windowsOf c xs, w ≠ [] ∧ w.length ≤ c := by
  induction xs using windowsOf.induct c with
  | case1 xs h => rw [windowsOf, dif_pos h]; simp
  | case2 xs h ih =>
      rw [windowsOf, dif_neg h]
      simp only [not_or] at h
      intro w hw
      rcases List.mem_cons.mp hw with rfl | hw'
      · refine ⟨?_, by simp⟩
        simp only [ne_eq, List.take_eq_nil_iff, not_or]
        exact ⟨h.2, h.1⟩
      · exact ih w hw'

theorem windowsOf_ne_nil (c : ℕ) (xs : List ℚ) (h : ¬(xs = [] ∨ c = 0)) :
    windowsOf c xs ≠ [] := by
  rw [windowsOf, dif_neg h]; simp

theorem windowsOf_dropLast_length (c : ℕ) (xs : List ℚ) :
    ∀ w ∈ (windowsOf c xs).dropLast, w.length = c := by
  induction xs using windowsOf.induct c with
  | case1 xs h => rw [windowsOf, dif_pos h]; simp
  | case2 xs h ih =>
      rw [windowsOf, dif_neg h]
      cases hrec : windowsOf c (xs.drop c) with
      | nil => simp
      | cons a l =>
          intro w hw
          rw [List.dropLast_cons_of_ne_nil (by simp)] at hw
          rcases List.mem_cons.mp hw with rfl | hw'
          · have hdrop : xs.drop c ≠ [] := by
              intro hnil
              rw [hnil, windowsOf] at hrec
              simp at hrec
            have hlen : c < xs.length := by
              by_contra hle
              exact hdrop (List.drop_eq_nil_of_le (by omega))
            simp [List.length_take]
            omega
          · exact ih w (by rw [hrec]; exact hw')

theorem windowsOf_length (c : ℕ) (hc : c ≠ 0) (xs : List ℚ) :
    (windowsOf c xs).length = (xs.length + c - 1) / c := by
  induction xs using windowsOf.induct c with
  | case1 xs h =>
      rcases h with h | h
      · subst h
        rw [windowsOf]
        simp only [List.length_nil, dif_pos (Or.inl rfl)]
        exact (Nat.div_eq_of_lt (by omega)).symm
      · exact absurd h hc
  | case2 xs h ih =>
      rw [windowsOf, dif_neg h]
      simp only [not_or] at h
      have hn : 1 ≤ xs.length := List.length_pos.mpr h.1
      simp only [List.length_cons, ih, List.length_drop]
      rcases le_or_lt c xs.length with hcn | hcn
      · have h1 : xs.length - c + c - 1 = xs.length - 1 := by omega
        have h2 : xs.length + c - 1 = (xs.length - 1) + c := by omega
        rw [h1, h2, Nat.add_div_right _ (Nat.pos_of_ne_zero hc)]
      · have h1 : xs.length - c + c - 1 = c - 1 := by omega
        have h2 : (c - 1) / c = 0 := Nat.div_eq_of_lt (by omega)
        have h3 : (xs.length + c - 1) / c = 1 := by
          apply Nat.div_eq_of_lt_le <;> omega
        rw [h1, h2, h3]

theorem peaksLoop_length (c : ℕ) (hc : c ≠ 0) (xs : List ℚ) :
    (peaksLoop c xs).length = (xs.length + c - 1) / c := by
  rw [peaksLoop_eq_map, List.length_map, windowsOf_length c hc]

theorem foldl_maxAbs_init_le (l : List ℚ) :
    ∀ a : ℚ, a ≤ l.foldl (fun a x => max a |x|) a := by
  induction l with
  | nil => intro a; simp
  | cons x l ih =>
      intro a
      exact le_trans (le_max_left a |x|) (ih (max a |x|))

theorem maxAbs_nonneg (l : List ℚ) : 0 ≤ maxAbs l := foldl_maxAbs_init_le l 0

theorem foldl_maxAbs_le (l : List ℚ) (b : ℚ) (hb : ∀ x ∈ l, |x| ≤ b) :
    ∀ a : ℚ, a ≤ b → l.foldl (fun a x => max a |x|) a ≤ b := by
  induction l with
  | nil => intro a ha; simpa using ha
  | cons x l ih =>
      intro a ha
      exact ih (fun y hy => hb y (List.mem_cons_of_mem x hy)) (max a |x|)
        (max_le ha (hb x (List.mem_cons_self x l)))

theorem maxAbs_le (l : List ℚ) (b : ℚ) (h0 : 0 ≤ b) (hb : ∀ x ∈ l, |x| ≤ b) :
    maxAbs l ≤ b := foldl_maxAbs_le l b hb 0 h0

theorem round_mono_rat {x y : ℚ} (h : x ≤ y) : round x ≤ round y := by
  rw [round_eq, round_eq]
  exact Int.floor_le_floor (by linarith)

theorem round4_nonneg (x : ℚ) (h : 0 ≤ x) : 0 ≤ round4 x := by
  unfold round4
  have h1 : (0 : ℤ) ≤ round (x * 10000) := by
    have := round_mono_rat (show (0 : ℚ) ≤ x * 10000 by nlinarith)
    simpa using this
  have h2 : (0 : ℚ) ≤ (round (x * 10000) : ℚ) := by exact_mod_cast h1
  exact div_nonneg h2 (by norm_num)

theorem round4_le_one (x : ℚ) (h : x ≤ 1) : round4 x ≤ 1 := by
  unfold round4
  have h1 : round (x * 10000) ≤ 10000 := by
    have := round_mono_rat (show x * 10000 ≤ (10000 : ℚ) by nlinarith)
    simpa using this
  rw [div_le_one (by norm_num)]
  exact_mod_cast h1

theorem mem_of_mem_windowsOf {c : ℕ} {xs w : List ℚ}
    (hw : w ∈ windowsOf c xs) : ∀ x ∈ w, x ∈ xs := by
  induction xs using windowsOf.induct c with
  | case1 xs h => rw [windowsOf, dif_pos h] at hw; cases hw
  | case2 xs h ih =>
      rw [windowsOf, dif_neg h] at hw
      rcases List.mem_cons.mp hw with rfl | hw'
      · intro x hx; exact List.take_subset c xs hx
      · intro x hx; exact List.drop_subset c xs (ih hw' x hx)

/-! ## Claims about the peak extractor -/

/-- C6 (amended): for `1 ≤ pointsPerSecond ≤ 44100` the peak extractor
reads the mono stream in consecutive windows of
`windowSamples = sampleRate / pointsPerSecond` samples (integer division),
emits `round(max |sample|, 4)` once per window including a final non-empty
trailing window, and the number of points is
`⌈numSamples / windowSamples⌉`; that count is within one point of
`duration_seconds * pointsPerSecond` whenever `pointsPerSecond` divides the
sample rate (in particular at the default 100), but not in general. -/
theorem c6_peaks_windows_amended (pps : ℕ) (samples : List ℚ)
    (h1 : 1 ≤ pps) (h2 : pps ≤ 44100) :
    generate_peaks_points pps samples
        = (windowsOf (chunk_size pps) samples).map (fun w => round4 (maxAbs w)) ∧
    (windowsOf (chunk_size pps) samples).flatten = samples ∧
    (∀ w ∈ windowsOf (chunk_size pps) samples,
        w ≠ [] ∧ w.length ≤ chunk_size pps) ∧
    (∀ w ∈ (windowsOf (chunk_size pps) samples).dropLast,
        w.length = chunk_size pps) ∧
    (generate_peaks_points pps samples).length
        = (samples.length + chunk_size pps - 1) / chunk_size pps ∧
    (pps ∣ 44100 →
      |((generate_peaks_points pps samples).length : ℚ)
          - (samples.length : ℚ) / 44100 * pps| ≤ 1) := by
  have hc0 : chunk_size pps ≠ 0 := by
    unfold chunk_size sampleRate
    have := (Nat.one_le_div_iff (show 0 < pps by omega)).mpr h2
    omega
  refine ⟨peaksLoop_eq_map _ _, windowsOf_flatten _ hc0 _, windowsOf_mem_props _ _,
    windowsOf_dropLast_length _ _, peaksLoop_length _ hc0 _, ?_⟩
  intro hdvd
  have hcp : chunk_size pps * pps = 44100 := by
    unfold chunk_size sampleRate
    exact Nat.div_mul_cancel hdvd
  set c := chunk_size pps with hcdef
  set N := samples.length with hN
  rw [generate_peaks_points, ← hcdef, peaksLoop_length c hc0 samples, ← hN]
  have hcpos : 0 < c := Nat.pos_of_ne_zero hc0
  have hdm : c * ((N + c - 1) / c) + (N + c - 1) % c = N + c - 1 :=
    Nat.div_add_mod _ _
  have hmod : (N + c - 1) % c < c := Nat.mod_lt _ hcpos
  have hlbN : N ≤ c * ((N + c - 1) / c) := by omega
  have hubN : c * ((N + c - 1) / c) ≤ N + c := by omega
  have hlbQ : (N : ℚ) ≤ (c : ℚ) * ((N + c - 1) / c : ℕ) := by exact_mod_cast hlbN
  have hubQ : (c : ℚ) * ((N + c - 1) / c : ℕ) ≤ (N : ℚ) + c := by
    exact_mod_cast hubN
  have hcQ : (0 : ℚ) < (c : ℚ) := by exact_mod_cast hcpos
  have h44 : ((44100 : ℚ)) = (c : ℚ) * (pps : ℚ) := by exact_mod_cast hcp.symm
  have hppsQ : (pps : ℚ) ≠ 0 := by
    have : (0 : ℚ) < (pps : ℚ) := by exact_mod_cast (show 0 < pps by omega)
    exact ne_of_gt this
  have hdiv : (N : ℚ) / 44100 * pps = (N : ℚ) / c := by
    rw [h44]
    field_simp
    ring
  rw [hdiv, abs_le]
  constructor
  · have : (N : ℚ) / c ≤ ((N + c - 1) / c : ℕ) + 1 := by
      rw [div_le_iff hcQ]
      nlinarith
    linarith
  · have : ((N + c - 1) / c : ℕ) - 1 ≤ (N : ℚ) / c := by
      rw [le_div_iff hcQ]
      nlinarith
    linarith

/-- C6 counterexample: at `pointsPerSecond = 1000` (which does not divide
the 44100 Hz sample rate) on one second of audio, the extractor emits 1003
points while `duration_seconds * pointsPerSecond = 1000`, so the point
count is not within one window of `duration_seconds * pointsPerSecond`. -/
theorem c6_counterexample :
    (generate_peaks_points 1000 (List.replicate 44100 ((1 : ℚ)/2))).length = 1003 ∧
    ¬ (|((generate_peaks_points 1000 (List.replicate 44100 ((1 : ℚ)/2))).length : ℚ)
        - ((List.replicate 44100 ((1 : ℚ)/2)).length : ℚ) / 44100 * 1000| ≤ 1) := by
  have hc : chunk_size 1000 = 44 := by decide
  have hlen : (generate_peaks_points 1000 (List.replicate 44100 ((1 : ℚ)/2))).length = 1003 := by
    rw [generate_peaks_points, hc, peaksLoop_length 44 (by decide),
      List.length_replicate]
  refine ⟨hlen, ?_⟩
  rw [hlen, List.length_replicate]
  norm_num

/-- C6 witness at the default-compatible rate: `pointsPerSecond = 100`
divides 44100, one sample of value `1/2`. -/
theorem c6_witness :
    (1 ≤ 100 ∧ 100 ≤ 44100) ∧
    (generate_peaks_points 100 [(1 : ℚ)/2]
        = (windowsOf (chunk_size 100) [(1 : ℚ)/2]).map (fun w => round4 (maxAbs w)) ∧
    (windowsOf (chunk_size 100) [(1 : ℚ)/2]).flatten = [(1 : ℚ)/2] ∧
    (∀ w ∈ windowsOf (chunk_size 100) [(1 : ℚ)/2],
        w ≠ [] ∧ w.length ≤ chunk_size 100) ∧
    (∀ w ∈ (windowsOf (chunk_size 100) [(1 : ℚ)/2]).dropLast,
        w.length = chunk_size 100) ∧
    (generate_peaks_points 100 [(1 : ℚ)/2]).length
        = ([(1 : ℚ)/2].length + chunk_size 100 - 1) / chunk_size 100 ∧
    (100 ∣ 44100 →
      |((generate_peaks_points 100 [(1 : ℚ)/2]).length : ℚ)
          - ([(1 : ℚ)/2].length : ℚ) / 44100 * 100| ≤ 1)) :=
  ⟨⟨by norm_num, by norm_num⟩,
    c6_peaks_windows_amended 100 [(1 : ℚ)/2] (by norm_num) (by norm_num)⟩

/-- C7 counterexample: on an undecodable input (`ffmpeg` produces no
data — e.g. the audio file is missing) `generate_peaks` completes without
error and writes an empty peak series, instead of returning or raising an
extraction error. -/
theorem c7_counterexample :
    generate_peaks .failed 100 ≠ .error .ioError ∧
    generate_peaks .failed 100 = .ok (some ⟨[], 100⟩) := by
  constructor
  · intro h
    rw [generate_peaks] at h
    simp at h
  · rw [generate_peaks]
    simp [DecodeResult.stream, generate_peaks_points, peaksLoop]

/-- C7 (amended): the peak extractor never raises to its caller — the whole
body is guarded by `except Exception` which only logs.  On an input whose
decode produces no data (missing file, decode error) it completes and
writes a peak series with an empty point list. -/
theorem c7_peaks_never_raise_amended :
    (∀ (dec : DecodeResult) (pps : ℕ), ∃ r, generate_peaks dec pps = .ok r) ∧
    (∀ pps : ℕ, pps ≠ 0 →
      generate_peaks .failed pps = .ok (some ⟨[], pps⟩)) := by
  constructor
  · intro dec pps
    rw [generate_peaks]
    by_cases h : pps = 0 <;> simp [h]
  · intro pps h
    rw [generate_peaks, if_neg h]
    simp [DecodeResult.stream, generate_peaks_points, peaksLoop]

theorem c7_witness :
    (∃ r, generate_peaks .failed 100 = .ok r) ∧
    (100 ≠ 0 ∧ generate_peaks .failed 100 = .ok (some ⟨[], 100⟩)) :=
  ⟨c7_peaks_never_raise_amended.1 .failed 100,
    by norm_num, c7_peaks_never_raise_amended.2 100 (by norm_num)⟩

/-- C8: if the decoded samples are normalized (every `|sample| ≤ 1`, the
native normalization of the `f32le` decode), then every point of the
produced peak series lies in `[0, 1]`. -/
theorem c8_peaks_in_unit_interval (pps : ℕ) (samples : List ℚ)
    (hnorm : ∀ s ∈ samples, |s| ≤ 1) :
    ∀ p ∈ generate_peaks_points pps samples, 0 ≤ p ∧ p ≤ 1 := by
  intro p hp
  rw [generate_peaks_points, peaksLoop_eq_map] at hp
  rcases List.mem_map.mp hp with ⟨w, hw, rfl⟩
  have hmem := mem_of_mem_windowsOf hw
  refine ⟨round4_nonneg _ (maxAbs_nonneg w), round4_le_one _ ?_⟩
  exact maxAbs_le w 1 (by norm_num) (fun x hx => hnorm x (hmem x hx))

theorem c8_witness :
    (∀ s ∈ [(1 : ℚ)/2, -1], |s| ≤ 1) ∧
    (∀ p ∈ generate_peaks_points 100 [(1 : ℚ)/2, -1], 0 ≤ p ∧ p ≤ 1) :=
  ⟨by intro s hs; fin_cases hs <;> norm_num [abs_le],
    c8_peaks_in_unit_interval 100 [(1 : ℚ)/2, -1]
      (by intro s hs; fin_cases hs <;> norm_num [abs_le])⟩

/-- C9: `Split` on an unreadable or zero-length source propagates the
`ffmpeg` failure (`subprocess.run(..., check=True)` raises, realizing the
spec's `SplitError`), and `Merge` on an empty input list raises
(`ValueError("No files to merge")`, realizing the spec's `MergeError`). -/
theorem c9_split_merge_errors (src : SrcAudio) (segSamples : ℕ)
    (h : src.readable = false ∨ src.numSamples = 0) :
    split_audio src segSamples = .error .ffmpegFailed ∧
    merge_audio_files [] = .error .noFiles := by
  constructor
  · rw [split_audio, if_neg]
    rintro ⟨hr, hn⟩
    rcases h with h | h
    · rw [h] at hr; exact absurd hr (by simp)
    · exact hn h
  · rw [merge_audio_files, if_pos rfl]

/-! ## Claims about the pipeline state machine -/

theorem failWith_raised (x : Tracked) (e : PyError) (msg : String) :
    (failWith x e msg).raised = some e := rfl

theorem failWith_statusFile (x : Tracked) (e : PyError) (msg : String) :
    (failWith x e msg).state.statusFile = some ⟨"failed", 0, msg⟩ := rfl

/-- C1: in any single run of the fresh-upload pipeline or of a single-stage
re-run, the progress values written to the status record are monotonically
non-decreasing while the run succeeds, and once the background task has
returned the recorded status is exactly `completed` or `failed`. -/
theorem c1_progress_monotone_and_terminal (o : Oracles) (im : MetaDict)
    (lessonId now : String) (st0 : LessonFS) (task : TaskType) :
    ((process_lesson_background o im lessonId now st0).raised = none →
      List.Chain' (· ≤ ·)
        ((process_lesson_background o im lessonId now st0).trace.map
          StatusRecord.progress)) ∧
    (∃ rec, (process_lesson_background o im lessonId now st0).state.statusFile
        = some rec ∧ (rec.status = "completed" ∨ rec.status = "failed")) ∧
    ((reprocess_lesson_step o task st0).raised = none →
      List.Chain' (· ≤ ·)
        ((reprocess_lesson_step o task st0).trace.map StatusRecord.progress)) ∧
    (∃ rec, (reprocess_lesson_step o task st0).state.statusFile = some rec ∧
      (rec.status = "completed" ∨ rec.status = "failed")) := by
  obtain ⟨pw, sep, tr, llm, cm⟩ := o
  refine ⟨?_, ?_, ?_, ?_⟩
  · intro h
    cases pw with
    | error e => simp [process_lesson_background, failWith] at h
    | ok _ =>
    cases sep with
    | error e => simp [process_lesson_background, failWith] at h
    | ok _ =>
    cases tr with
    | error e => simp [process_lesson_background, failWith] at h
    | ok p =>
      obtain ⟨t, s⟩ := p
      simp [process_lesson_background, upd, write_status]
      norm_num
  · cases pw with
    | error e => exact ⟨_, failWith_statusFile _ _ _, Or.inr rfl⟩
    | ok _ =>
    cases sep with
    | error e => exact ⟨_, failWith_statusFile _ _ _, Or.inr rfl⟩
    | ok _ =>
    cases tr with
    | error e => exact ⟨_, failWith_statusFile _ _ _, Or.inr rfl⟩
    | ok p =>
      obtain ⟨t, s⟩ := p
      refine ⟨⟨"completed", 1, "Ready"⟩, ?_, Or.inl rfl⟩
      simp [process_lesson_background, upd, write_status]
      norm_num
  · intro h
    by_cases ho : st0.originalMp3
    · cases task with
      | separate =>
          cases pw with
          | error e => simp [reprocess_lesson_step, ho, failWith] at h
          | ok _ =>
          cases sep with
          | error e => simp [reprocess_lesson_step, ho, failWith] at h
          | ok _ =>
            simp [reprocess_lesson_step, ho, upd, write_status]
            norm_num
      | transcribe =>
          by_cases hv : st0.vocalsMp3
          · cases tr with
            | error e =>
                simp [reprocess_lesson_step, ho, hv, upd, write_status, failWith] at h
            | ok p =>
                obtain ⟨t, s⟩ := p
                simp [reprocess_lesson_step, ho, hv, upd, write_status]
                norm_num
          · simp [reprocess_lesson_step, ho, hv, upd, write_status, failWith] at h
      | summarize =>
          cases htr : st0.transcriptJson with
          | none =>
              simp [reprocess_lesson_step, ho, htr, upd, write_status, failWith] at h
          | some segs =>
              simp [reprocess_lesson_step, ho, htr, upd, write_status]
              norm_num
      | other n => simp [reprocess_lesson_step, ho, failWith] at h
    · simp [reprocess_lesson_step, ho, failWith] at h
  · by_cases ho : st0.originalMp3
    · cases task with
      | separate =>
          cases pw with
          | error e =>
              refine ⟨⟨"failed", 0, "Error: " ++ strOfError e⟩, ?_, Or.inr rfl⟩
              simp [reprocess_lesson_step, ho, failWith, upd, write_status]
          | ok _ =>
          cases sep with
          | error e =>
              refine ⟨⟨"failed", 0, "Error: " ++ strOfError e⟩, ?_, Or.inr rfl⟩
              simp [reprocess_lesson_step, ho, failWith, upd, write_status]
          | ok _ =>
              refine ⟨⟨"completed", 1, "Separation Complete"⟩, ?_, Or.inl rfl⟩
              simp [reprocess_lesson_step, ho, upd, write_status]
              norm_num
      | transcribe =>
          by_cases hv : st0.vocalsMp3
          · cases tr with
            | error e =>
                refine ⟨⟨"failed", 0, "Error: " ++ strOfError e⟩, ?_, Or.inr rfl⟩
                simp [reprocess_lesson_step, ho, hv, failWith, upd, write_status]
            | ok p =>
                obtain ⟨t, s⟩ := p
                refine ⟨⟨"completed", 1, "Transcription Complete"⟩, ?_, Or.inl rfl⟩
                simp [reprocess_lesson_step, ho, hv, upd, write_status,
                  save_lesson_metadata]
                norm_num
          · refine ⟨⟨"failed", 0,
                "Error: Vocals track not found. Run separation first."⟩, ?_, Or.inr rfl⟩
            simp [reprocess_lesson_step, ho, hv, failWith, upd, write_status]
      | summarize =>
          cases htr : st0.transcriptJson with
          | none =>
              refine ⟨⟨"failed", 0,
                "Error: Transcript not found. Run transcription first."⟩, ?_, Or.inr rfl⟩
              simp [reprocess_lesson_step, ho, htr, failWith, upd, write_status]
          | some segs =>
              refine ⟨⟨"completed", 1, "Summarization Complete"⟩, ?_, Or.inl rfl⟩
              simp [reprocess_lesson_step, ho, htr, upd, write_status,
                save_lesson_metadata]
              norm_num
      | other n =>
          refine ⟨⟨"failed", 0, "Error: " ++ ("Unknown task: " ++ n)⟩, ?_, Or.inr rfl⟩
          simp [reprocess_lesson_step, ho, failWith, upd, write_status]
    · refine ⟨⟨"failed", 0, "Error: Original audio file not found"⟩, ?_, Or.inr rfl⟩
      simp [reprocess_lesson_step, ho, failWith, upd, write_status]

/-- C1 witness: an all-successful fresh run and an all-successful
`separate` re-run on a lesson that has its original audio. -/
theorem c1_witness :
    ((process_lesson_background
        ⟨.ok (), .ok (), .ok ("t", []), .ok {}, .ok ()⟩ {} "L1" "2024-01-01"
        { dirExists := true, originalMp3 := true }).raised = none →
      List.Chain' (· ≤ ·)
        ((process_lesson_background
          ⟨.ok (), .ok (), .ok ("t", []), .ok {}, .ok ()⟩ {} "L1" "2024-01-01"
          { dirExists := true, originalMp3 := true }).trace.map
            StatusRecord.progress)) ∧
    (∃ rec, (process_lesson_background
        ⟨.ok (), .ok (), .ok ("t", []), .ok {}, .ok ()⟩ {} "L1" "2024-01-01"
        { dirExists := true, originalMp3 := true }).state.statusFile
          = some rec ∧ (rec.status = "completed" ∨ rec.status = "failed")) ∧
    ((reprocess_lesson_step
        ⟨.ok (), .ok (), .ok ("t", []), .ok {}, .ok ()⟩ .separate
        { dirExists := true, originalMp3 := true }).raised = none →
      List.Chain' (· ≤ ·)
        ((reprocess_lesson_step
          ⟨.ok (), .ok (), .ok ("t", []), .ok {}, .ok ()⟩ .separate
          { dirExists := true, originalMp3 := true }).trace.map
            StatusRecord.progress)) ∧
    (∃ rec, (reprocess_lesson_step
        ⟨.ok (), .ok (), .ok ("t", []), .ok {}, .ok ()⟩ .separate
        { dirExists := true, originalMp3 := true }).state.statusFile = some rec ∧
      (rec.status = "completed" ∨ rec.status = "failed")) :=
  c1_progress_monotone_and_terminal
    ⟨.ok (), .ok (), .ok ("t", []), .ok {}, .ok ()⟩ {} "L1" "2024-01-01"
    { dirExists := true, originalMp3 := true } .separate

/-- C2 counterexample: in a single-stage re-run (`transcribe`) whose stage
raises `boom`, the final status message is `"Error: boom"`, not the
error's string representation `"boom"` — the claim's message equation
fails for re-run pipelines. -/
theorem c2_counterexample :
    (reprocess_lesson_step
        ⟨.ok (), .ok (), .error (.stageError "boom"), .ok {}, .ok ()⟩ .transcribe
        { dirExists := true, originalMp3 := true, vocalsMp3 := true }).raised
      = some (.stageError "boom") ∧
    (reprocess_lesson_step
        ⟨.ok (), .ok (), .error (.stageError "boom"), .ok {}, .ok ()⟩ .transcribe
        { dirExists := true, originalMp3 := true, vocalsMp3 := true }).state.statusFile
      = some ⟨"failed", 0, "Error: boom"⟩ ∧
    "Error: boom" ≠ "boom" := by
  refine ⟨?_, ?_, by decide⟩ <;>
    simp [reprocess_lesson_step, failWith, upd, write_status, strOfError]

/-- C2 (amended): when a stage of a pipeline run raises an unhandled error,
the remaining stages are not executed (no transcript/summary artifact is
written) and the final status record is `failed` with progress `0.0`;
the message is the error's string representation for the fresh-upload
pipeline and `"Error: " + str(e)` for a single-stage re-run.  Artifacts
written by earlier successful stages (separated tracks, peak files) remain
present. -/
theorem c2_failure_state_amended (o : Oracles) (im : MetaDict)
    (lessonId now : String) (st0 : LessonFS) (task : TaskType) (e : PyError) :
    ((process_lesson_background o im lessonId now st0).raised = some e →
      (process_lesson_background o im lessonId now st0).state.statusFile
          = some ⟨"failed", 0, strOfError e⟩ ∧
      (process_lesson_background o im lessonId now st0).state.transcriptJson
          = st0.transcriptJson ∧
      (process_lesson_background o im lessonId now st0).state.transcriptTxt
          = st0.transcriptTxt ∧
      (process_lesson_background o im lessonId now st0).state.summaryJson
          = st0.summaryJson ∧
      (process_lesson_background o im lessonId now st0).state.originalMp3
          = st0.originalMp3 ∧
      (o.prepare_wav = .ok () → o.separate = .ok () →
        (process_lesson_background o im lessonId now st0).state.vocalsMp3 = true ∧
        (process_lesson_background o im lessonId now st0).state.guitarMp3 = true ∧
        (process_lesson_background o im lessonId now st0).state.vocalsPeaks = true ∧
        (process_lesson_background o im lessonId now st0).state.guitarPeaks = true)) ∧
    ((reprocess_lesson_step o task st0).raised = some e →
      (reprocess_lesson_step o task st0).state.statusFile
          = some ⟨"failed", 0, "Error: " ++ strOfError e⟩) := by
  obtain ⟨pw, sep, tr, llm, cm⟩ := o
  constructor
  · cases pw with
    | error e0 =>
        intro h
        obtain rfl : e0 = e := by
          simpa [process_lesson_background, failWith] using h
        simp [process_lesson_background, failWith, upd, write_status]
    | ok _ =>
    cases sep with
    | error e0 =>
        intro h
        obtain rfl : e0 = e := by
          simpa [process_lesson_background, failWith] using h
        simp [process_lesson_background, failWith, upd, write_status]
    | ok _ =>
    cases tr with
    | error e0 =>
        intro h
        obtain rfl : e0 = e := by
          simpa [process_lesson_background, failWith] using h
        simp [process_lesson_background, failWith, upd, write_status]
    | ok p =>
        obtain ⟨t, s⟩ := p
        intro h
        simp [process_lesson_background, upd, write_status] at h
  · by_cases ho : st0.originalMp3
    · cases task with
      | separate =>
          cases pw with
          | error e0 =>
              intro h
              obtain rfl : e0 = e := by
                simpa [reprocess_lesson_step, ho, failWith] using h
              simp [reprocess_lesson_step, ho, failWith, upd, write_status]
          | ok _ =>
          cases sep with
          | error e0 =>
              intro h
              obtain rfl : e0 = e := by
                simpa [reprocess_lesson_step, ho, failWith] using h
              simp [reprocess_lesson_step, ho, failWith, upd, write_status]
          | ok _ =>
              intro h
              simp [reprocess_lesson_step, ho, upd, write_status] at h
      | transcribe =>
          by_cases hv : st0.vocalsMp3
          · cases tr with
            | error e0 =>
                intro h
                obtain rfl : e0 = e := by
                  simpa [reprocess_lesson_step, ho, hv, failWith, upd, write_status] using h
                simp [reprocess_lesson_step, ho, hv, failWith, upd, write_status]
            | ok p =>
                obtain ⟨t, s⟩ := p
                intro h
                simp [reprocess_lesson_step, ho, hv, upd, write_status,
                  save_lesson_metadata] at h
          · intro h
            obtain rfl : PyError.fileNotFound
                "Vocals track not found. Run separation first." = e := by
              simpa [reprocess_lesson_step, ho, hv, failWith, upd, write_status] using h
            simp [reprocess_lesson_step, ho, hv, failWith, upd, write_status, strOfError]
      | summarize =>
          cases htr : st0.transcriptJson with
          | none =>
              intro h
              obtain rfl : PyError.fileNotFound
                  "Transcript not found. Run transcription first." = e := by
                simpa [reprocess_lesson_step, ho, htr, failWith, upd, write_status] using h
              simp [reprocess_lesson_step, ho, htr, failWith, upd, write_status, strOfError]
          | some segs =>
              intro h
              simp [reprocess_lesson_step, ho, htr, upd, write_status,
                save_lesson_metadata] at h
      | other n =>
          intro h
          obtain rfl : PyError.valueError ("Unknown task: " ++ n) = e := by
            simpa [reprocess_lesson_step, ho, failWith] using h
          simp [reprocess_lesson_step, ho, failWith, upd, write_status, strOfError]
    · intro h
      obtain rfl : PyError.fileNotFound "Original audio file not found" = e := by
        simpa [reprocess_lesson_step, ho, failWith] using h
      simp [reprocess_lesson_step, ho, failWith, upd, write_status, strOfError]

/-- C2 witness: fresh pipeline whose transcription stage raises `boom`,
with separated tracks already written. -/
theorem c2_witness :
    ((process_lesson_background
        ⟨.ok (), .ok (), .error (.stageError "boom"), .ok {}, .ok ()⟩ {} "L1" "d"
        { dirExists := true, originalMp3 := true }).raised
          = some (.stageError "boom") →
      (process_lesson_background
        ⟨.ok (), .ok (), .error (.stageError "boom"), .ok {}, .ok ()⟩ {} "L1" "d"
        { dirExists := true, originalMp3 := true }).state.statusFile
          = some ⟨"failed", 0, strOfError (.stageError "boom")⟩ ∧
      (process_lesson_background
        ⟨.ok (), .ok (), .error (.stageError "boom"), .ok {}, .ok ()⟩ {} "L1" "d"
        { dirExists := true, originalMp3 := true }).state.transcriptJson
          = ({ dirExists := true, originalMp3 := true } : LessonFS).transcriptJson ∧
      (process_lesson_background
        ⟨.ok (), .ok (), .error (.stageError "boom"), .ok {}, .ok ()⟩ {} "L1" "d"
        { dirExists := true, originalMp3 := true }).state.transcriptTxt
          = ({ dirExists := true, originalMp3 := true } : LessonFS).transcriptTxt ∧
      (process_lesson_background
        ⟨.ok (), .ok (), .error (.stageError "boom"), .ok {}, .ok ()⟩ {} "L1" "d"
        { dirExists := true, originalMp3 := true }).state.summaryJson
          = ({ dirExists := true, originalMp3 := true } : LessonFS).summaryJson ∧
      (process_lesson_background
        ⟨.ok (), .ok (), .error (.stageError "boom"), .ok {}, .ok ()⟩ {} "L1" "d"
        { dirExists := true, originalMp3 := true }).state.originalMp3
          = ({ dirExists := true, originalMp3 := true } : LessonFS).originalMp3 ∧
      ((Oracles.mk (.ok ()) (.ok ()) (.error (.stageError "boom")) (.ok {})
          (.ok ())).prepare_wav = .ok () →
        (Oracles.mk (.ok ()) (.ok ()) (.error (.stageError "boom")) (.ok {})
          (.ok ())).separate = .ok () →
        (process_lesson_background
          ⟨.ok (), .ok (), .error (.stageError "boom"), .ok {}, .ok ()⟩ {} "L1" "d"
          { dirExists := true, originalMp3 := true }).state.vocalsMp3 = true ∧
        (process_lesson_background
          ⟨.ok (), .ok (), .error (.stageError "boom"), .ok {}, .ok ()⟩ {} "L1" "d"
          { dirExists := true, originalMp3 := true }).state.guitarMp3 = true ∧
        (process_lesson_background
          ⟨.ok (), .ok (), .error (.stageError "boom"), .ok {}, .ok ()⟩ {} "L1" "d"
          { dirExists := true, originalMp3 := true }).state.vocalsPeaks = true ∧
        (process_lesson_background
          ⟨.ok (), .ok (), .error (.stageError "boom"), .ok {}, .ok ()⟩ {} "L1" "d"
          { dirExists := true, originalMp3 := true }).state.guitarPeaks = true)) ∧
    ((reprocess_lesson_step
        ⟨.ok (), .ok (), .error (.stageError "boom"), .ok {}, .ok ()⟩ .transcribe
        { dirExists := true, originalMp3 := true }).raised
          = some (.stageError "boom") →
      (reprocess_lesson_step
        ⟨.ok (), .ok (), .error (.stageError "boom"), .ok {}, .ok ()⟩ .transcribe
        { dirExists := true, originalMp3 := true }).state.statusFile
          = some ⟨"failed", 0, "Error: " ++ strOfError (.stageError "boom")⟩) :=
  c2_failure_state_amended
    ⟨.ok (), .ok (), .error (.stageError "boom"), .ok {}, .ok ()⟩ {} "L1" "d"
    { dirExists := true, originalMp3 := true } .transcribe (.stageError "boom")

/-- C3: re-running `transcribe` on a lesson whose vocal-track artifact is
absent (the lesson has its original audio, as every ingested lesson does)
fails with `FileNotFoundError("Vocals track not found. Run separation
first.")` — the code's realization of `MissingUpstreamArtifact`, whose
message names separation as the stage to run first — and leaves
`transcript.json` and `transcript.txt` unchanged. -/
theorem c3_transcribe_missing_vocals (o : Oracles) (st0 : LessonFS)
    (ho : st0.originalMp3 = true) (hv : st0.vocalsMp3 = false) :
    (reprocess_lesson_step o .transcribe st0).raised
        = some (.fileNotFound "Vocals track not found. Run separation first.") ∧
    (reprocess_lesson_step o .transcribe st0).state.transcriptJson
        = st0.transcriptJson ∧
    (reprocess_lesson_step o .transcribe st0).state.transcriptTxt
        = st0.transcriptTxt := by
  refine ⟨?_, ?_, ?_⟩ <;>
    simp [reprocess_lesson_step, ho, hv, failWith, upd, write_status]

theorem c3_witness :
    (({ dirExists := true, originalMp3 := true,
        transcriptTxt := some "old transcript" } : LessonFS).originalMp3 = true ∧
      ({ dirExists := true, originalMp3 := true,
         transcriptTxt := some "old transcript" } : LessonFS).vocalsMp3 = false) ∧
    ((reprocess_lesson_step ⟨.ok (), .ok (), .ok ("t", []), .ok {}, .ok ()⟩ .transcribe
        { dirExists := true, originalMp3 := true,
          transcriptTxt := some "old transcript" }).raised
        = some (.fileNotFound "Vocals track not found. Run separation first.") ∧
    (reprocess_lesson_step ⟨.ok (), .ok (), .ok ("t", []), .ok {}, .ok ()⟩ .transcribe
        { dirExists := true, originalMp3 := true,
          transcriptTxt := some "old transcript" }).state.transcriptJson
        = ({ dirExists := true, originalMp3 := true,
             transcriptTxt := some "old transcript" } : LessonFS).transcriptJson ∧
    (reprocess_lesson_step ⟨.ok (), .ok (), .ok ("t", []), .ok {}, .ok ()⟩ .transcribe
        { dirExists := true, originalMp3 := true,
          transcriptTxt := some "old transcript" }).state.transcriptTxt
        = ({ dirExists := true, originalMp3 := true,
             transcriptTxt := some "old transcript" } : LessonFS).transcriptTxt) :=
  ⟨⟨rfl, rfl⟩, c3_transcribe_missing_vocals
    ⟨.ok (), .ok (), .ok ("t", []), .ok {}, .ok ()⟩
    { dirExists := true, originalMp3 := true,
      transcriptTxt := some "old transcript" } rfl rfl⟩

/-- C4 counterexample: re-running `summarize` on a lesson whose
transcript-segment artifact is missing does change the status record —
it ends at `failed` (after passing through `processing`), not at its
pre-call value `completed`. -/
theorem c4_counterexample :
    (reprocess_lesson_step ⟨.ok (), .ok (), .ok ("t", []), .ok {}, .ok ()⟩ .summarize
        { dirExists := true, originalMp3 := true,
          statusFile := some ⟨"completed", 1, "Ready"⟩ }).raised
      = some (.fileNotFound "Transcript not found. Run transcription first.") ∧
    (reprocess_lesson_step ⟨.ok (), .ok (), .ok ("t", []), .ok {}, .ok ()⟩ .summarize
        { dirExists := true, originalMp3 := true,
          statusFile := some ⟨"completed", 1, "Ready"⟩ }).state.statusFile
      ≠ ({ dirExists := true, originalMp3 := true,
           statusFile := some ⟨"completed", 1, "Ready"⟩ } : LessonFS).statusFile := by
  constructor
  · simp [reprocess_lesson_step, failWith, upd, write_status]
  · simp [reprocess_lesson_step, failWith, upd, write_status]

/-- C4 (amended): re-running `summarize` with the transcript-segment
artifact missing records the missing-upstream failure
(`FileNotFoundError("Transcript not found. Run transcription first.")`)
and leaves the lesson's artifacts unchanged, but the status record is
rewritten: it ends at `failed` with progress `0.0` and a message naming
the missing upstream stage — it is not unchanged from before the call. -/
theorem c4_summarize_missing_transcript_amended (o : Oracles) (st0 : LessonFS)
    (ho : st0.originalMp3 = true) (ht : st0.transcriptJson = none) :
    (reprocess_lesson_step o .summarize st0).raised
        = some (.fileNotFound "Transcript not found. Run transcription first.") ∧
    (reprocess_lesson_step o .summarize st0).state.statusFile
        = some ⟨"failed", 0, "Error: Transcript not found. Run transcription first."⟩ ∧
    (reprocess_lesson_step o .summarize st0).state.summaryJson = st0.summaryJson ∧
    (reprocess_lesson_step o .summarize st0).state.transcriptJson
        = st0.transcriptJson ∧
    (reprocess_lesson_step o .summarize st0).state.transcriptTxt
        = st0.transcriptTxt := by
  refine ⟨?_, ?_, ?_, ?_, ?_⟩ <;>
    simp [reprocess_lesson_step, ho, ht, failWith, upd, write_status]

theorem c4_witness :
    (({ dirExists := true, originalMp3 := true } : LessonFS).originalMp3 = true ∧
      ({ dirExists := true, originalMp3 := true } : LessonFS).transcriptJson = none) ∧
    ((reprocess_lesson_step ⟨.ok (), .ok (), .ok ("t", []), .ok {}, .ok ()⟩ .summarize
        { dirExists := true, originalMp3 := true }).raised
        = some (.fileNotFound "Transcript not found. Run transcription first.") ∧
    (reprocess_lesson_step ⟨.ok (), .ok (), .ok ("t", []), .ok {}, .ok ()⟩ .summarize
        { dirExists := true, originalMp3 := true }).state.statusFile
        = some ⟨"failed", 0, "Error: Transcript not found. Run transcription first."⟩ ∧
    (reprocess_lesson_step ⟨.ok (), .ok (), .ok ("t", []), .ok {}, .ok ()⟩ .summarize
        { dirExists := true, originalMp3 := true }).state.summaryJson
        = ({ dirExists := true, originalMp3 := true } : LessonFS).summaryJson ∧
    (reprocess_lesson_step ⟨.ok (), .ok (), .ok ("t", []), .ok {}, .ok ()⟩ .summarize
        { dirExists := true, originalMp3 := true }).state.transcriptJson
        = ({ dirExists := true, originalMp3 := true } : LessonFS).transcriptJson ∧
    (reprocess_lesson_step ⟨.ok (), .ok (), .ok ("t", []), .ok {}, .ok ()⟩ .summarize
        { dirExists := true, originalMp3 := true }).state.transcriptTxt
        = ({ dirExists := true, originalMp3 := true } : LessonFS).transcriptTxt) :=
  ⟨⟨rfl, rfl⟩, c4_summarize_missing_transcript_amended
    ⟨.ok (), .ok (), .ok ("t", []), .ok {}, .ok ()⟩
    { dirExists := true, originalMp3 := true } rfl rfl⟩

/-- C5 (code bug): a successful `summarize` re-run on a lesson whose
`metadata.json` carries a title, tags and a memo wipes all three:
`update_status` persists `{"status": status}` through
`save_lesson_metadata`, which overwrites the whole of `metadata.json`,
so after the re-run the title is gone and tags/memo have collapsed to the
store's defaults — contradicting the spec's claim that side effects are
scoped to the stage's own artifacts. -/
theorem c5_rerun_wipes_metadata :
    (get_lesson_metadata
        { dirExists := true, originalMp3 := true,
          metadataFile := some { title := some "My Lesson", tags := some ["jazz"],
                                 memo := some "notes", status := some "completed" },
          transcriptJson := some [] }).title = some "My Lesson" ∧
    (get_lesson_metadata
        { dirExists := true, originalMp3 := true,
          metadataFile := some { title := some "My Lesson", tags := some ["jazz"],
                                 memo := some "notes", status := some "completed" },
          transcriptJson := some [] }).tags = some ["jazz"] ∧
    (get_lesson_metadata
        { dirExists := true, originalMp3 := true,
          metadataFile := some { title := some "My Lesson", tags := some ["jazz"],
                                 memo := some "notes", status := some "completed" },
          transcriptJson := some [] }).memo = some "notes" ∧
    (reprocess_lesson_step
        ⟨.ok (), .ok (), .ok ("t", []),
          .ok { summary := some "S", key_points := some [], chords := some [] },
          .ok ()⟩ .summarize
        { dirExists := true, originalMp3 := true,
          metadataFile := some { title := some "My Lesson", tags := some ["jazz"],
                                 memo := some "notes", status := some "completed" },
          transcriptJson := some [] }).raised = none ∧
    (reprocess_lesson_step
        ⟨.ok (), .ok (), .ok ("t", []),
          .ok { summary := some "S", key_points := some [], chords := some [] },
          .ok ()⟩ .summarize
        { dirExists := true, originalMp3 := true,
          metadataFile := some { title := some "My Lesson", tags := some ["jazz"],
                                 memo := some "notes", status := some "completed" },
          transcriptJson := some [] }).state.metadataFile
      = some { status := some "completed" } ∧
    (get_lesson_metadata (reprocess_lesson_step
        ⟨.ok (), .ok (), .ok ("t", []),
          .ok { summary := some "S", key_points := some [], chords := some [] },
          .ok ()⟩ .summarize
        { dirExists := true, originalMp3 := true,
          metadataFile := some { title := some "My Lesson", tags := some ["jazz"],
                                 memo := some "notes", status := some "completed" },
          transcriptJson := some [] }).state).title = none ∧
    (get_lesson_metadata (reprocess_lesson_step
        ⟨.ok (), .ok (), .ok ("t", []),
          .ok { summary := some "S", key_points := some [], chords := some [] },
          .ok ()⟩ .summarize
        { dirExists := true, originalMp3 := true,
          metadataFile := some { title := some "My Lesson", tags := some ["jazz"],
                                 memo := some "notes", status := some "completed" },
          transcriptJson := some [] }).state).tags = some [] ∧
    (get_lesson_metadata (reprocess_lesson_step
        ⟨.ok (), .ok (), .ok ("t", []),
          .ok { summary := some "S", key_points := some [], chords := some [] },
          .ok ()⟩ .summarize
        { dirExists := true, originalMp3 := true,
          metadataFile := some { title := some "My Lesson", tags := some ["jazz"],
                                 memo := some "notes", status := some "completed" },
          transcriptJson := some [] }).state).memo = some "" := by
  refine ⟨?_, ?_, ?_, ?_, ?_, ?_, ?_, ?_⟩ <;>
    simp [reprocess_lesson_step, get_lesson_metadata, metaUpdate, keyUpd,
      summarize, metaUpdateSummary, save_lesson_metadata, upd, write_status,
      failWith]

/-- C10: when MP3 normalization of a fresh upload fails, the upload
handler removes the saved raw upload and the whole lesson directory,
raises HTTP 500, and never writes a `queued` status record, never creates
the DB record, and never dispatches the background pipeline. -/
theorem c10_upload_conversion_failure (o : Oracles) (im : MetaDict)
    (ctime : String) (e : PyError) (h : o.convert_mp3 = .error e) :
    (upload_lesson o im ctime).response
        = .error ("Audio normalization failed: " ++ strOfError e) ∧
    (upload_lesson o im ctime).state.dirExists = false ∧
    (upload_lesson o im ctime).state.rawUpload = false ∧
    (upload_lesson o im ctime).state.originalMp3 = false ∧
    (upload_lesson o im ctime).state.statusFile = none ∧
    (upload_lesson o im ctime).state.metadataFile = none ∧
    (upload_lesson o im ctime).dispatched = false := by
  obtain ⟨pw, sep, tr, llm, cm⟩ := o
  cases cm with
  | ok _ => simp at h
  | error e0 =>
      obtain rfl : e0 = e := by simpa using h
      refine ⟨rfl, rfl, rfl, rfl, rfl, rfl, rfl⟩

theorem c10_witness :
    (Oracles.mk (.ok ()) (.ok ()) (.ok ("t", [])) (.ok {})
        (.error (.stageError "bad codec"))).convert_mp3
      = .error (.stageError "bad codec") ∧
    ((upload_lesson
        ⟨.ok (), .ok (), .ok ("t", []), .ok {}, .error (.stageError "bad codec")⟩
        {} "2024-01-01").response
        = .error ("Audio normalization failed: " ++ strOfError (.stageError "bad codec")) ∧
    (upload_lesson
        ⟨.ok (), .ok (), .ok ("t", []), .ok {}, .error (.stageError "bad codec")⟩
        {} "2024-01-01").state.dirExists = false ∧
    (upload_lesson
        ⟨.ok (), .ok (), .ok ("t", []), .ok {}, .error (.stageError "bad codec")⟩
        {} "2024-01-01").state.rawUpload = false ∧
    (upload_lesson
        ⟨.ok (), .ok (), .ok ("t", []), .ok {}, .error (.stageError "bad codec")⟩
        {} "2024-01-01").state.originalMp3 = false ∧
    (upload_lesson
        ⟨.ok (), .ok (), .ok ("t", []), .ok {}, .error (.stageError "bad codec")⟩
        {} "2024-01-01").state.statusFile = none ∧
    (upload_lesson
        ⟨.ok (), .ok (), .ok ("t", []), .ok {}, .error (.stageError "bad codec")⟩
        {} "2024-01-01").state.metadataFile = none ∧
    (upload_lesson
        ⟨.ok (), .ok (), .ok ("t", []), .ok {}, .error (.stageError "bad codec")⟩
        {} "2024-01-01").dispatched = false) :=
  ⟨rfl, c10_upload_conversion_failure
    ⟨.ok (), .ok (), .ok ("t", []), .ok {}, .error (.stageError "bad codec")⟩
    {} "2024-01-01" (.stageError "bad codec") rfl⟩

theorem c9_witness :
    ((SrcAudio.mk false 100).readable = false ∨ (SrcAudio.mk false 100).numSamples = 0) ∧
    (split_audio (SrcAudio.mk false 100) 600 = .error .ffmpegFailed ∧
      merge_audio_files [] = .error .noFiles) :=
  ⟨Or.inl rfl, c9_split_merge_errors (SrcAudio.mk false 100) 600 (Or.inl rfl)⟩

end Refret
